import Mathlib

/-!
Shallow embedding of the fetch/retry/download logic of the
4cat_webjutter_extensions repository.

The embedded code lives in:
* src/datasources/webjutter/search_webjutter.py          (SearchWebjutter.get_items)
* src/datasources/webjutter_search/search_webjutter.py   (SearchWebjutter.get_items,
  SearchWebjutter.webjutter_search_request, SearchWebjutter.validate_query)
* src/datasources/fourchan/download_4chan_images.py      (collect_image_urls,
  download_images, stream_url)
* src/download_4chan_images.py                           (process, stream_url)

Network effects are modelled by an environment function (or list) that
scripts the outcome of each HTTP attempt in order; `time.sleep` calls are
modelled by recording the requested wait durations (in seconds, as
rationals) in the order they happen; files on disk are modelled by the
lists of byte chunks written.
-/

/-! ## Pagination loop of src/datasources/webjutter/search_webjutter.py (get_items) -/

/-- What one fetch (`requests.get` at line 258 plus the parse that follows)
produces inside the pagination loop of `get_items` in
src/datasources/webjutter/search_webjutter.py:
* `connError` — `requests.exceptions.ConnectionError` raised (line 260);
* `http429`   — `raise_for_status` raised an HTTPError with status 429 (line 266);
* `httpErr s` — HTTPError with some other status `s` (re-raised, line 273);
* `otherErr`  — any other exception (line 274: logged, `return results`);
* `badJson`   — `response.json()` raised JSONDecodeError (line 281: `return results`);
* `page items searchAfter` — a parsed JSON body with its `results` list and
  optional `search_after` cursor. -/
inductive FetchResult where
  | connError : FetchResult
  | http429 : FetchResult
  | httpErr (status : Nat) : FetchResult
  | otherErr : FetchResult
  | badJson : FetchResult
  | page (items : List Nat) (searchAfter : Option Nat) : FetchResult
deriving DecidableEq

/-- How a run of `get_items` ends:
* `finished` — the while loop ended and `self.job.finish(); return results` ran;
* `interruptedRaise` — `ProcessorInterruptedException` raised (line 249);
* `httpRaise s` — a non-429 HTTPError propagated out (line 273);
* `earlyReturn` — `return results` from inside the loop (lines 276/283);
* `starved` — the scripted fetch list ran out while the loop still wanted
  another page (the real loop would keep going, so reaching this outcome
  means no stop condition had triggered yet). -/
inductive GOutcome where
  | finished : GOutcome
  | interruptedRaise : GOutcome
  | httpRaise (status : Nat) : GOutcome
  | earlyReturn : GOutcome
  | starved : GOutcome
deriving DecidableEq

/-- Observable result of a `get_items` run: how it ended, the accumulated
`results` list at that moment, how many fetches were performed, and the
`time.sleep` durations requested, in order. -/
structure GetItemsRun where
  outcome : GOutcome
  results : List Nat
  fetched : Nat
  sleeps : List ℚ
deriving DecidableEq

/-- Record one `time.sleep` in front of the rest of a run. -/
def sleepCons (q : ℚ) (r : GetItemsRun) : GetItemsRun :=
  ⟨r.outcome, r.results, r.fetched, q :: r.sleeps⟩

/-- The `while has_more and retries <= self.max_retries` loop of `get_items`
(src/datasources/webjutter/search_webjutter.py lines 247-306).
`fetches` scripts the network; `fetched` counts requests already made
(also indexing the `interrupted` schedule); `results` and `retries` are the
local variables of the same names.  Faithful points: the retry counter is
incremented on ConnectionError (after a fixed 2-second sleep) and on
HTTP 429 (after a `min(2 ** retries, 60)`-second sleep); it is reset to 0
after every successfully parsed non-empty page; an empty `results` list in
a page breaks the loop; a missing `search_after` cursor sets
`has_more = False`; a present cursor sleeps 0.5 s and continues. -/
def getItemsGo (interrupted : Nat → Bool) (maxRetries : Nat)
    (fetches : List FetchResult) (fetched : Nat) (results : List Nat)
    (retries : Nat) : GetItemsRun :=
  if maxRetries < retries then ⟨GOutcome.finished, results, fetched, []⟩
  else if interrupted fetched then ⟨GOutcome.interruptedRaise, results, fetched, []⟩
  else
    match fetches with
    | [] => ⟨GOutcome.starved, results, fetched, []⟩
    | FetchResult.connError :: rest =>
        sleepCons 2 (getItemsGo interrupted maxRetries rest (fetched + 1) results (retries + 1))
    | FetchResult.http429 :: rest =>
        sleepCons (min ((2 : ℚ) ^ retries) 60)
          (getItemsGo interrupted maxRetries rest (fetched + 1) results (retries + 1))
    | FetchResult.httpErr s :: _ => ⟨GOutcome.httpRaise s, results, fetched + 1, []⟩
    | FetchResult.otherErr :: _ => ⟨GOutcome.earlyReturn, results, fetched + 1, []⟩
    | FetchResult.badJson :: _ => ⟨GOutcome.earlyReturn, results, fetched + 1, []⟩
    | FetchResult.page items sa :: rest =>
        if items.isEmpty then ⟨GOutcome.finished, results, fetched + 1, []⟩
        else
          match sa with
          | some _ =>
              sleepCons (1 / 2)
                (getItemsGo interrupted maxRetries rest (fetched + 1) (results ++ items) 0)
          | none => ⟨GOutcome.finished, results ++ items, fetched + 1, []⟩

/-- `get_items` entry: `results = []`, `retries = 0`, `max_retries = 3`
(class attribute `max_retries` at line 40). -/
def getItems (interrupted : Nat → Bool) (fetches : List FetchResult) : GetItemsRun :=
  getItemsGo interrupted 3 fetches 0 [] 0

/-- Interrupt schedule that never fires. -/
def noInterrupt : Nat → Bool := fun _ => false

/-! ## Pagination loop of src/datasources/webjutter_search/search_webjutter.py (get_items) -/

/-- What one call to `webjutter_search_request` inside the `get_items` of
src/datasources/webjutter_search/search_webjutter.py produces:
* `exn` — one of the caught exception types escaped the helper (line 293);
* `page items searchAfter` — a parsed body. -/
inductive Fetch2 where
  | exn : Fetch2
  | page (items : List Nat) (searchAfter : Option Nat) : Fetch2
deriving DecidableEq

/-- How the second `get_items` variant ends:
* `finished` — `self.job.finish(); return results`;
* `errorFinish` — `self.dataset.finish(-1); return` (returns `None`, line 294-296);
* `interruptedRaise` — interruption exception (line 280);
* `starved` — scripted fetches ran out with the loop still going. -/
inductive G2Outcome where
  | finished : G2Outcome
  | errorFinish : G2Outcome
  | interruptedRaise : G2Outcome
  | starved : G2Outcome
deriving DecidableEq

/-- Observable result of the second `get_items`: how it ended, the value the
function returned (`none` models Python's `None`), and the fetch count. -/
structure GetItems2Run where
  outcome : G2Outcome
  returned : Option (List Nat)
  fetched : Nat
deriving DecidableEq

/-- The `while has_more and retries <= self.max_retries` loop of `get_items`
in src/datasources/webjutter_search/search_webjutter.py (lines 279-321).
In this variant `retries` is never incremented, only reset to 0 after each
parsed page (line 318); an exception from `webjutter_search_request` reports
a run-level error and returns `None`, discarding the accumulated results. -/
def getItems2Go (interrupted : Nat → Bool) (maxRetries : Nat)
    (fetches : List Fetch2) (fetched : Nat) (results : List Nat)
    (retries : Nat) : GetItems2Run :=
  if maxRetries < retries then ⟨G2Outcome.finished, some results, fetched⟩
  else if interrupted fetched then ⟨G2Outcome.interruptedRaise, none, fetched⟩
  else
    match fetches with
    | [] => ⟨G2Outcome.starved, none, fetched⟩
    | Fetch2.exn :: _ => ⟨G2Outcome.errorFinish, none, fetched + 1⟩
    | Fetch2.page items sa :: rest =>
        if items.isEmpty then ⟨G2Outcome.finished, some results, fetched + 1⟩
        else
          match sa with
          | some _ => getItems2Go interrupted maxRetries rest (fetched + 1) (results ++ items) 0
          | none => ⟨G2Outcome.finished, some (results ++ items), fetched + 1⟩

/-- Entry point for the second `get_items` variant (`max_retries = 3`). -/
def getItems2 (interrupted : Nat → Bool) (fetches : List Fetch2) : GetItems2Run :=
  getItems2Go interrupted 3 fetches 0 [] 0

/-! ## webjutter_search_request (src/datasources/webjutter_search/search_webjutter.py) -/

/-- What one `requests.post` attempt inside `webjutter_search_request`
produces (lines 416-418):
* `response status hasMessage parses` — an HTTP response arrived;
  `hasMessage` is whether its body is a JSON dict carrying a "message" key
  (checked only when `status >= 400`, lines 421-428), `parses` whether the
  final `response.json()` succeeds (line 466);
* `timeout` — `requests.exceptions.Timeout` raised;
* `connErr` — `requests.exceptions.ConnectionError` raised;
* `otherExn` — some other exception raised. -/
inductive HttpAttempt where
  | response (status : Nat) (hasMessage : Bool) (parses : Bool) : HttpAttempt
  | timeout : HttpAttempt
  | connErr : HttpAttempt
  | otherExn : HttpAttempt
deriving DecidableEq

/-- How `webjutter_search_request` ends:
* `success s` — the loop broke with a good response of status `s` and the
  body parsed;
* `jsonError` — the body of the good response was invalid JSON (line 468);
* `queryError` — `QueryParametersException` raised for a >=400 response
  carrying a "message" field (line 426), re-raised at line 457;
* `timeoutRaise` — `Timeout` re-raised after the retry budget (line 436);
* `connErrorRaise` — `ConnectionError` raised (budget exhausted at line 444,
  or wrapping an unexpected exception at line 458);
* `httpRaise s` — a non-429 HTTPError re-raised (line 453);
* `noResponse` — the loop exited with only a failed response in hand and
  line 463 raised `ConnectionError` (a >=400 `requests.Response` is falsy). -/
inductive ReqOutcome where
  | success (status : Nat) : ReqOutcome
  | jsonError : ReqOutcome
  | queryError : ReqOutcome
  | timeoutRaise : ReqOutcome
  | connErrorRaise : ReqOutcome
  | httpRaise (status : Nat) : ReqOutcome
  | noResponse : ReqOutcome
deriving DecidableEq

/-- The `while retries <= max_retries` loop of `webjutter_search_request`
(lines 414-460), with `fuel = max_retries + 1 - retries` so that the loop
condition `retries <= max_retries` is exactly `fuel > 0`.  Each non-breaking
iteration increments `retries` by one, so `fuel` drops by one.  On `timeout`
and `connErr` the handler increments `retries` and raises when
`retries > max_retries`, i.e. exactly when the incoming `fuel` was 1; the
429 handler increments and `continue`s without its own raise, so running out
of fuel there falls through to line 462, where the falsy error response
triggers `ConnectionError` (`noResponse`). -/
def wsrGo (attempts : Nat → HttpAttempt) (retries : Nat) : Nat → ReqOutcome
  | 0 => ReqOutcome.noResponse
  | fuel + 1 =>
    match attempts retries with
    | HttpAttempt.response status hasMessage parses =>
        if 400 ≤ status then
          if hasMessage then ReqOutcome.queryError
          else if status = 429 then wsrGo attempts (retries + 1) fuel
          else ReqOutcome.httpRaise status
        else if parses then ReqOutcome.success status else ReqOutcome.jsonError
    | HttpAttempt.timeout =>
        if fuel = 0 then ReqOutcome.timeoutRaise else wsrGo attempts (retries + 1) fuel
    | HttpAttempt.connErr =>
        if fuel = 0 then ReqOutcome.connErrorRaise else wsrGo attempts (retries + 1) fuel
    | HttpAttempt.otherExn => ReqOutcome.connErrorRaise

/-- Line 412 of src/datasources/webjutter_search/search_webjutter.py:
`max_retries = 3 if max_retries < 1 else max_retries`. -/
def effectiveMaxRetries (maxRetries : Int) : Int :=
  if maxRetries < 1 then 3 else maxRetries

/-- `webjutter_search_request` (lines 386-468): validation of the other
arguments is not modelled; the loop starts with `retries = 0` after the
`max_retries` coercion of line 412. -/
def webjutterSearchRequest (attempts : Nat → HttpAttempt) (maxRetries : Int) : ReqOutcome :=
  wsrGo attempts 0 ((effectiveMaxRetries maxRetries).toNat + 1)

/-- The `max_retries=1` argument that `validate_query` passes to
`webjutter_search_request` at line 489 of
src/datasources/webjutter_search/search_webjutter.py. -/
def validateQueryMaxRetries : Int := 1

/-! ## Manual retry loop of collect_image_urls
(src/datasources/fourchan/download_4chan_images.py, cloudscraper strategy) -/

/-- What one `scraper.get` attempt for a search URL produces, after the
parsing in `extract_url_from_json` (lines 188-221):
* `found` — status 200 and an image URL was extracted (loop breaks, line 251);
* `rateLimited` — status 200 but the body carries an "...limit exceeded..."
  error, so `should_retry = True` (line 197);
* `missingMedia` — status 200 but no media data; `should_retry = False` and
  the reason "Missing media data" does not contain "API", so no retry;
* `badStatus s` — a non-200 status; the reason "API {s}" contains "API",
  so this is retried (line 246);
* `exn` — `scraper.get` (or `.json()`) raised; the reason
  "Exception: {e}" is modelled as not containing "API", so no retry. -/
inductive CollectAttempt where
  | found : CollectAttempt
  | rateLimited : CollectAttempt
  | missingMedia : CollectAttempt
  | badStatus (status : Nat) : CollectAttempt
  | exn : CollectAttempt
deriving DecidableEq

/-- The retry condition of line 256:
`should_retry or (retry_reason and "API" in retry_reason)`. -/
def collectRetryable : CollectAttempt → Bool
  | CollectAttempt.rateLimited => true
  | CollectAttempt.badStatus _ => true
  | _ => false

/-- Observable result of the per-URL `while True` loop of
`collect_image_urls`: whether an image URL was stored in `self.filenames`,
how many attempts were made, and the backoff sleeps requested, in order. -/
structure CollectRun where
  found : Bool
  attemptsMade : Nat
  sleeps : List ℚ
deriving DecidableEq

/-- The per-URL `while True` loop of `collect_image_urls`
(src/datasources/fourchan/download_4chan_images.py lines 240-267).
`count` is `retry_counts.get(search_url, 0)`; since every retry increments
it by one, `count` also equals the index of the current attempt.
`remaining` carries `3 - count` (the retries still allowed), so the source
guard `count < 3` of line 258 is exactly `0 < remaining`.  On a retryable
failure within the budget the code sets `retry_counts[url] = count + 1` and
sleeps `2 ** (count + 1)` seconds before the next attempt (line 260);
otherwise the loop breaks. -/
def collectRetryLoop (attempts : Nat → CollectAttempt) (count remaining : Nat) : CollectRun :=
  if attempts count = CollectAttempt.found then ⟨true, count + 1, []⟩
  else if collectRetryable (attempts count) then
    match remaining with
    | 0 => ⟨false, count + 1, []⟩
    | rem + 1 =>
      let r := collectRetryLoop attempts (count + 1) rem
      ⟨r.found, r.attemptsMade, ((2 : ℚ) ^ (count + 1)) :: r.sleeps⟩
  else ⟨false, count + 1, []⟩

/-- One target of `collect_image_urls`: retry cap 3 (line 258), fresh
`retry_counts` entry, so `count = 0` and 3 retries remaining. -/
def collectImageUrlTarget (attempts : Nat → CollectAttempt) : CollectRun :=
  collectRetryLoop attempts 0 3

/-- Specification helper: the sleeps the collect loop requests when attempts
`c, c+1, ...` keep failing — `2^(c+1), 2^(c+2), ...` seconds. -/
def expWaits (c : Nat) : Nat → List ℚ
  | 0 => []
  | n + 1 => ((2 : ℚ) ^ (c + 1)) :: expWaits (c + 1) n

/-- Specification helper: the sleeps the 429 handler of `get_items` requests
when attempts with retry counter `r, r+1, ...` keep failing —
`min(2^r, 60), min(2^(r+1), 60), ...` seconds. -/
def rlWaits (r : Nat) : Nat → List ℚ
  | 0 => []
  | n + 1 => (min ((2 : ℚ) ^ r) 60) :: rlWaits (r + 1) n

/-! ## Filename registry (both 4chan downloader variants) -/

/-- Python dict insertion `d[k] = v` for a dict kept as an association list
in insertion order: an existing key keeps its position and gets the new
value, a new key is appended. -/
def dictInsert {α : Type} (d : List (String × α)) (k : String) (v : α) : List (String × α) :=
  if d.any (fun e => e.1 == k) then d.map (fun e => if e.1 == k then (k, v) else e)
  else d ++ [(k, v)]

/-- The key list of a dict. -/
def dictKeys {α : Type} (d : List (String × α)) : List String := d.map Prod.fst

/-- Number of entries of a dict carrying key `k`. -/
def countKey {α : Type} (d : List (String × α)) (k : String) : Nat := (dictKeys d).count k

/-- Python dict lookup `d.get(k)`. -/
def dictLookup {α : Type} : List (String × α) → String → Option α
  | [], _ => none
  | e :: t, k => if e.1 == k then some e.2 else dictLookup t k

/-- Python's `str.split("/")`, spelled out on the character list: segments
between slashes, keeping empty segments, so that e.g. `"a/b"` gives
`["a", "b"]` and `"a/"` gives `["a", ""]`. -/
def splitSlash : List Char → List (List Char)
  | [] => [[]]
  | c :: t =>
    match splitSlash t with
    | [] => [[]]
    | seg :: rest => if c = '/' then [] :: seg :: rest else (c :: seg) :: rest

/-- Line 250 of src/datasources/fourchan/download_4chan_images.py (and
line 251 of src/download_4chan_images.py): the staging filename assigned to
a resolved image URL is `img_url.split("/")[-1]`. -/
def filenameFor (url : String) : String := String.mk ((splitSlash url.toList).getLastD [])

/-- `self.filenames[img_url] = img_url.split("/")[-1]`. -/
def registerImageUrl (filenames : List (String × String)) (url : String) :
    List (String × String) :=
  dictInsert filenames url (filenameFor url)

/-- The `self.filenames` registry built from a sequence of resolved URLs. -/
def buildFilenames (urls : List String) : List (String × String) :=
  urls.foldl registerImageUrl []

/-! ## download_images (src/datasources/fourchan/download_4chan_images.py) -/

/-- Observable result of a `download_images` run over the scripted response
stream: the `.metadata.json` manifest content (url -> success flag, in
insertion order), the `downloaded_files` and `failures` collections, whether
the manifest file was actually written (it is not when the interruption
branch deletes the staging area and raises), whether the run aborted on
interruption, and the final `self.complete` flag. -/
structure DownloadRun where
  metadata : List (String × Bool)
  downloaded : List String
  failures : List String
  manifestWritten : Bool
  interruptedAbort : Bool
  complete : Bool
deriving DecidableEq

/-- The result-consumption loop of `download_images`
(src/datasources/fourchan/download_4chan_images.py lines 339-381).
`responses` scripts the `(image_url, response.status_code)` pairs in arrival
order.  Faithful points: the interruption check runs first each iteration
and on interruption the staging area is deleted and an exception raised, so
the manifest is never written (lines 348-351); a 200 status adds the URL to
`downloaded_files`, any other status records a failure and unlinks the
partial file; `metadata[image_url]` is then set with the success flag
(lines 365-370); the loop breaks with `self.complete = True` once
`amount > 0` and enough files downloaded (lines 375-377); the manifest is
written only after the loop (line 380). -/
def downloadImagesGo (amount : Nat) (interrupted : Nat → Bool)
    (responses : List (String × Nat)) (i : Nat) (metadata : List (String × Bool))
    (downloaded : List String) (failures : List String) : DownloadRun :=
  match responses with
  | [] => ⟨metadata, downloaded, failures, true, false, false⟩
  | (url, status) :: rest =>
    if interrupted i then ⟨metadata, downloaded, failures, false, true, false⟩
    else
      let success := status = 200
      let downloaded2 := if success then downloaded ++ [url] else downloaded
      let failures2 := if success then failures else failures ++ [url]
      let metadata2 := dictInsert metadata url success
      if 0 < amount ∧ amount ≤ downloaded2.length then
        ⟨metadata2, downloaded2, failures2, true, false, true⟩
      else downloadImagesGo amount interrupted rest (i + 1) metadata2 downloaded2 failures2

/-- `download_images` entry: empty collections (lines 328-330). -/
def downloadImages (amount : Nat) (interrupted : Nat → Bool)
    (responses : List (String × Nat)) : DownloadRun :=
  downloadImagesGo amount interrupted responses 0 [] [] []

/-! ## stream_url sinks (both 4chan downloader variants) -/

/-- Observable result of one `stream_url` hook invocation: the chunks
appended to the destination file, in order, and whether the sink stopped
early (setting `_content_consumed` and calling `response.raw.close()`). -/
structure SinkRun where
  written : List (List Nat)
  closedEarly : Bool
deriving DecidableEq

/-- Condition of the per-chunk guard
`if not response.ok or self.interrupted or self.complete` at chunk
boundary `t`. -/
def sinkStop (ok : Bool) (interrupted complete : Nat → Bool) (t : Nat) : Bool :=
  !ok || interrupted t || complete t

/-- The `while chunk := response.raw.read(1024, ...)` loop of `stream_url`
in src/datasources/fourchan/download_4chan_images.py (lines 408-415).
`chunks` scripts what each `raw.read` returns (an empty chunk is falsy and
ends the loop); `t` numbers the chunk boundaries, indexing the flag
schedules and the write environment `writeOk` (whether the destination
still exists when the chunk is written).  This variant has no try/except
around the write, so a failed write (`FileNotFoundError`) propagates out of
the hook — modelled as `Except.error ()`. -/
def fourchanStreamUrl (ok : Bool) (interrupted complete writeOk : Nat → Bool) :
    List (List Nat) → Nat → Except Unit SinkRun
  | [], _ => Except.ok ⟨[], false⟩
  | chunk :: rest, t =>
    if chunk.isEmpty then Except.ok ⟨[], false⟩
    else if sinkStop ok interrupted complete t then Except.ok ⟨[], true⟩
    else if writeOk t then
      match fourchanStreamUrl ok interrupted complete writeOk rest (t + 1) with
      | Except.ok r => Except.ok ⟨chunk :: r.written, r.closedEarly⟩
      | Except.error e => Except.error e
    else Except.error ()

/-- The `while chunk := response.raw.read(1024, ...)` loop of `stream_url`
in src/download_4chan_images.py (lines 359-375).  Identical to the fourchan
variant except that the write sits in a
`try: outfile.write(chunk) except FileNotFoundError: pass` block
(lines 369-375), so a failed write is swallowed and the loop keeps
consuming the stream. -/
def rootStreamUrl (ok : Bool) (interrupted complete writeOk : Nat → Bool) :
    List (List Nat) → Nat → SinkRun
  | [], _ => ⟨[], false⟩
  | chunk :: rest, t =>
    if chunk.isEmpty then ⟨[], false⟩
    else if sinkStop ok interrupted complete t then ⟨[], true⟩
    else
      let r := rootStreamUrl ok interrupted complete writeOk rest (t + 1)
      ⟨if writeOk t then chunk :: r.written else r.written, r.closedEarly⟩

/-! ## Progress arithmetic (src/datasources/fourchan/download_4chan_images.py) -/

/-- Line 271: `self.dataset.update_progress(len(self.filenames) / self.amount / 2)`
during URL collection. -/
def collectProgress (resolved amount : ℚ) : ℚ := resolved / amount / 2

/-- Line 373:
`self.dataset.update_progress(0.5 + (len(downloaded_files) / len(targets) / 2))`
during downloading. -/
def downloadProgress (downloaded targets : ℚ) : ℚ := 1 / 2 + downloaded / targets / 2

/-- Backoff sleep of the collect retry loop (line 260):
`sleep_time = 2 ** (count + 1)` where `count` is the number of retries
already used for this URL. -/
def collectSleepTime (count : Nat) : ℚ := (2 : ℚ) ^ (count + 1)

/-- Backoff wait of the 429 handler of `get_items`
(src/datasources/webjutter/search_webjutter.py line 267):
`wait_time = min(2 ** retries, 60)`. -/
def rateLimitWait (retries : Nat) : ℚ := min ((2 : ℚ) ^ retries) 60

/-- Specification helper: prepend a list of sleeps to a run. -/
def prependSleeps (l : List ℚ) (r : GetItemsRun) : GetItemsRun :=
  ⟨r.outcome, r.results, r.fetched, l ++ r.sleeps⟩

/-- Specification helper: the concatenated items of a list of
(items, cursor) pages. -/
def pageItems : List (List Nat × Nat) → List Nat
  | [] => []
  | p :: t => p.1 ++ pageItems t

/-- Specification helper: turn (items, cursor) pairs into fetch results
that all carry a cursor. -/
def cursorPages (ps : List (List Nat × Nat)) : List FetchResult :=
  ps.map (fun p => FetchResult.page p.1 (some p.2))

/-! # Theorems -/

theorem noInterrupt_eq (n : Nat) : noInterrupt n = false := rfl

theorem getItemsGo_stopRetries (intr : Nat → Bool) (m : Nat) (fetches : List FetchResult)
    (f : Nat) (res : List Nat) (r : Nat) (hr : m < r) :
    getItemsGo intr m fetches f res r = ⟨GOutcome.finished, res, f, []⟩ := by
  cases fetches <;> rw [getItemsGo.eq_def] <;> simp [hr]

theorem getItemsGo_interrupted (intr : Nat → Bool) (m : Nat) (fetches : List FetchResult)
    (f : Nat) (res : List Nat) (r : Nat) (hr : r ≤ m) (hint : intr f = true) :
    getItemsGo intr m fetches f res r = ⟨GOutcome.interruptedRaise, res, f, []⟩ := by
  cases fetches <;> rw [getItemsGo.eq_def] <;> simp [Nat.not_lt.mpr hr, hint]

theorem getItemsGo_conn (m : Nat) (rest : List FetchResult) (f : Nat) (res : List Nat)
    (r : Nat) (hr : r ≤ m) :
    getItemsGo noInterrupt m (FetchResult.connError :: rest) f res r
      = sleepCons 2 (getItemsGo noInterrupt m rest (f + 1) res (r + 1)) := by
  rw [getItemsGo.eq_def]
  simp [noInterrupt, Nat.not_lt.mpr hr]

theorem getItemsGo_429 (m : Nat) (rest : List FetchResult) (f : Nat) (res : List Nat)
    (r : Nat) (hr : r ≤ m) :
    getItemsGo noInterrupt m (FetchResult.http429 :: rest) f res r
      = sleepCons (min ((2 : ℚ) ^ r) 60) (getItemsGo noInterrupt m rest (f + 1) res (r + 1)) := by
  rw [getItemsGo.eq_def]
  simp [noInterrupt, Nat.not_lt.mpr hr]

theorem getItemsGo_pageCursor (m : Nat) (its : List Nat) (sa : Nat) (rest : List FetchResult)
    (f : Nat) (res : List Nat) (r : Nat) (hr : r ≤ m) (hne : its ≠ []) :
    getItemsGo noInterrupt m (FetchResult.page its (some sa) :: rest) f res r
      = sleepCons (1 / 2) (getItemsGo noInterrupt m rest (f + 1) (res ++ its) 0) := by
  rw [getItemsGo.eq_def]
  simp [noInterrupt, Nat.not_lt.mpr hr, hne]

theorem getItemsGo_pageEmpty (m : Nat) (sa : Option Nat) (rest : List FetchResult)
    (f : Nat) (res : List Nat) (r : Nat) (hr : r ≤ m) :
    getItemsGo noInterrupt m (FetchResult.page [] sa :: rest) f res r
      = ⟨GOutcome.finished, res, f + 1, []⟩ := by
  rw [getItemsGo.eq_def]
  simp [noInterrupt, Nat.not_lt.mpr hr]

theorem getItemsGo_pageLast (m : Nat) (its : List Nat) (rest : List FetchResult)
    (f : Nat) (res : List Nat) (r : Nat) (hr : r ≤ m) (hne : its ≠ []) :
    getItemsGo noInterrupt m (FetchResult.page its none :: rest) f res r
      = ⟨GOutcome.finished, res ++ its, f + 1, []⟩ := by
  rw [getItemsGo.eq_def]
  simp [noInterrupt, Nat.not_lt.mpr hr, hne]

theorem getItemsGo_cursor_pages (ps : List (List Nat × Nat)) :
    ∀ (rest : List FetchResult) (f : Nat) (res : List Nat),
    (∀ p ∈ ps, p.1 ≠ []) →
    getItemsGo noInterrupt 3 (cursorPages ps ++ rest) f res 0
      = prependSleeps (List.replicate ps.length (1 / 2))
          (getItemsGo noInterrupt 3 rest (f + ps.length) (res ++ pageItems ps) 0) := by
  induction ps with
  | nil =>
    intro rest f res _
    simp [cursorPages, pageItems, prependSleeps]
  | cons p t ih =>
    intro rest f res hne
    have hp : p.1 ≠ [] := hne p (by simp)
    have ht : ∀ q ∈ t, q.1 ≠ [] := fun q hq => hne q (by simp [hq])
    calc getItemsGo noInterrupt 3 (cursorPages (p :: t) ++ rest) f res 0
        = sleepCons (1 / 2) (getItemsGo noInterrupt 3 (cursorPages t ++ rest) (f + 1) (res ++ p.1) 0) := by
          simp only [cursorPages, List.map_cons, List.cons_append]
          exact getItemsGo_pageCursor 3 p.1 p.2 _ f res 0 (by omega) hp
      _ = sleepCons (1 / 2) (prependSleeps (List.replicate t.length (1 / 2))
            (getItemsGo noInterrupt 3 rest (f + 1 + t.length) ((res ++ p.1) ++ pageItems t) 0)) := by
          rw [ih (rest) (f + 1) (res ++ p.1) ht]
      _ = prependSleeps (List.replicate (p :: t).length (1 / 2))
            (getItemsGo noInterrupt 3 rest (f + (p :: t).length) (res ++ pageItems (p :: t)) 0) := by
          have hf : f + 1 + t.length = f + (t.length + 1) := by omega
          simp [sleepCons, prependSleeps, pageItems, List.replicate_succ,
            List.append_assoc, hf]

theorem collectRetryLoop_found (attempts : Nat → CollectAttempt) (count remaining : Nat)
    (h : attempts count = CollectAttempt.found) :
    collectRetryLoop attempts count remaining = ⟨true, count + 1, []⟩ := by
  rw [collectRetryLoop.eq_def]
  simp [h]

theorem collectRetryLoop_retry (attempts : Nat → CollectAttempt) (count rem : Nat)
    (hnf : attempts count ≠ CollectAttempt.found)
    (hr : collectRetryable (attempts count) = true) :
    collectRetryLoop attempts count (rem + 1)
      = ⟨(collectRetryLoop attempts (count + 1) rem).found,
         (collectRetryLoop attempts (count + 1) rem).attemptsMade,
         ((2 : ℚ) ^ (count + 1)) :: (collectRetryLoop attempts (count + 1) rem).sleeps⟩ := by
  rw [collectRetryLoop.eq_def]
  simp [hnf, hr]

theorem collectRetryLoop_budget (attempts : Nat → CollectAttempt) (count : Nat)
    (hnf : attempts count ≠ CollectAttempt.found) :
    collectRetryLoop attempts count 0 = ⟨false, count + 1, []⟩ := by
  rw [collectRetryLoop.eq_def]
  simp [hnf]

theorem collectRetryLoop_fatal (attempts : Nat → CollectAttempt) (count remaining : Nat)
    (hnf : attempts count ≠ CollectAttempt.found)
    (hr : collectRetryable (attempts count) = false) :
    collectRetryLoop attempts count remaining = ⟨false, count + 1, []⟩ := by
  rw [collectRetryLoop.eq_def]
  simp [hnf, hr]

theorem collectRetryLoop_succeeds (attempts : Nat → CollectAttempt) :
    ∀ (k c rem : Nat), k ≤ rem →
    (∀ i, i < k → collectRetryable (attempts (c + i)) = true ∧ attempts (c + i) ≠ CollectAttempt.found) →
    attempts (c + k) = CollectAttempt.found →
    collectRetryLoop attempts c rem = ⟨true, c + k + 1, expWaits c k⟩ := by
  intro k
  induction k with
  | zero =>
    intro c rem _ _ hs
    simp only [Nat.add_zero] at hs
    rw [collectRetryLoop_found attempts c rem hs]
    simp [expWaits]
  | succ n ih =>
    intro c rem hle hf hs
    obtain ⟨m, rfl⟩ : ∃ m, rem = m + 1 := ⟨rem - 1, by omega⟩
    have h0 := hf 0 (by omega)
    simp only [Nat.add_zero] at h0
    rw [collectRetryLoop_retry attempts c m h0.2 h0.1]
    have ihc := ih (c + 1) m (by omega)
      (fun i hi => by
        have := hf (i + 1) (by omega)
        have he : c + (i + 1) = c + 1 + i := by omega
        rw [he] at this
        exact this)
      (by
        have he : c + (n + 1) = c + 1 + n := by omega
        rw [he] at hs
        exact hs)
    rw [ihc]
    have he : c + 1 + n = c + (n + 1) := by omega
    simp [expWaits, he]

theorem collectRetryLoop_exhausts (attempts : Nat → CollectAttempt) :
    ∀ (rem c : Nat),
    (∀ i, i ≤ rem → collectRetryable (attempts (c + i)) = true ∧ attempts (c + i) ≠ CollectAttempt.found) →
    collectRetryLoop attempts c rem = ⟨false, c + rem + 1, expWaits c rem⟩ := by
  intro rem
  induction rem with
  | zero =>
    intro c hf
    have h0 := hf 0 (by omega)
    simp only [Nat.add_zero] at h0
    rw [collectRetryLoop_budget attempts c h0.2]
    simp [expWaits]
  | succ n ih =>
    intro c hf
    have h0 := hf 0 (by omega)
    simp only [Nat.add_zero] at h0
    rw [collectRetryLoop_retry attempts c n h0.2 h0.1]
    have ihc := ih (c + 1)
      (fun i hi => by
        have := hf (i + 1) (by omega)
        have he : c + (i + 1) = c + 1 + i := by omega
        rw [he] at this
        exact this)
    rw [ihc]
    have he : c + 1 + n = c + (n + 1) := by omega
    simp [expWaits, he]

theorem expWaits_getD : ∀ (k c i : Nat), i < k →
    (expWaits c k).getD i 0 = (2 : ℚ) ^ (c + i + 1) := by
  intro k
  induction k with
  | zero => intro c i hi; omega
  | succ n ih =>
    intro c i hi
    cases i with
    | zero => simp [expWaits]
    | succ j =>
      have := ih (c + 1) j (by omega)
      simp only [expWaits, List.getD_cons_succ]
      rw [this]
      have he : c + 1 + j = c + (j + 1) := by omega
      rw [he]

theorem rlWaits_getD : ∀ (k r i : Nat), i < k →
    (rlWaits r k).getD i 0 = min ((2 : ℚ) ^ (r + i)) 60 := by
  intro k
  induction k with
  | zero => intro r i hi; omega
  | succ n ih =>
    intro r i hi
    cases i with
    | zero => simp [rlWaits]
    | succ j =>
      have := ih (r + 1) j (by omega)
      simp only [rlWaits, List.getD_cons_succ]
      rw [this]
      have he : r + 1 + j = r + (j + 1) := by omega
      rw [he]

theorem wsrGo_skip_timeouts (attempts : Nat → HttpAttempt) :
    ∀ (k r fuel : Nat),
    (∀ i, i < k → attempts (r + i) = HttpAttempt.timeout) → k < fuel →
    wsrGo attempts r fuel = wsrGo attempts (r + k) (fuel - k) := by
  intro k
  induction k with
  | zero => intro r fuel _ _; simp
  | succ n ih =>
    intro r fuel hto hlt
    have h1 := ih r fuel (fun i hi => hto i (by omega)) (by omega)
    obtain ⟨m, hm⟩ : ∃ m, fuel - n = m + 1 := ⟨fuel - n - 1, by omega⟩
    rw [h1, hm, wsrGo, hto n (by omega)]
    have hm0 : m ≠ 0 := by omega
    simp only [if_neg hm0]
    have he : r + n + 1 = r + (n + 1) := by omega
    have hm2 : m = fuel - (n + 1) := by omega
    rw [he, hm2]

theorem dictKeys_map_update {α : Type} (k : String) (v : α) :
    ∀ (d : List (String × α)),
    dictKeys (d.map (fun e => if e.1 == k then (k, v) else e)) = dictKeys d := by
  intro d
  induction d with
  | nil => rfl
  | cons e t ih =>
    by_cases he : e.1 = k
    · simp [dictKeys, he] at ih ⊢
      simpa [dictKeys] using ih
    · simp [dictKeys, he] at ih ⊢
      simpa [dictKeys] using ih

theorem dictAny_iff_mem {α : Type} (k : String) (d : List (String × α)) :
    d.any (fun e => e.1 == k) = true ↔ k ∈ dictKeys d := by
  simp [List.any_eq_true, dictKeys, List.mem_map]

theorem dictKeys_dictInsert {α : Type} (d : List (String × α)) (k : String) (v : α) :
    dictKeys (dictInsert d k v)
      = if k ∈ dictKeys d then dictKeys d else dictKeys d ++ [k] := by
  unfold dictInsert
  by_cases h : d.any (fun e => e.1 == k)
  · rw [if_pos h, if_pos ((dictAny_iff_mem k d).mp h)]
    exact dictKeys_map_update k v d
  · rw [if_neg h, if_neg (fun hm => h ((dictAny_iff_mem k d).mpr hm))]
    simp [dictKeys]

theorem countKey_dictInsert {α : Type} (d : List (String × α)) (k u : String) (v : α) :
    countKey (dictInsert d k v) u
      = if k ∈ dictKeys d then countKey d u
        else countKey d u + (if u = k then 1 else 0) := by
  unfold countKey
  rw [dictKeys_dictInsert]
  by_cases h : k ∈ dictKeys d
  · simp [h]
  · simp [h, List.count_append, List.count_singleton]
    by_cases hu : u = k
    · simp [hu, List.count_cons]
    · have hku : ¬k = u := fun he => hu he.symm
      simp [hu, hku, List.count_cons]

theorem countKey_mem {α : Type} (d : List (String × α)) (u : String) :
    u ∈ dictKeys d ↔ 1 ≤ countKey d u := by
  unfold countKey
  rw [Nat.one_le_iff_ne_zero]
  constructor
  · intro h
    exact fun hz => (List.count_eq_zero.mp hz) h
  · intro h
    by_contra hm
    exact h (List.count_eq_zero.mpr hm)

theorem countKey_dictInsert_le {α : Type} (d : List (String × α)) (k u : String) (v : α)
    (h : countKey d u ≤ 1) : countKey (dictInsert d k v) u ≤ 1 := by
  rw [countKey_dictInsert]
  by_cases hk : k ∈ dictKeys d
  · simp [hk, h]
  · simp only [if_neg hk]
    by_cases hu : u = k
    · subst hu
      have : countKey d u = 0 := by
        by_contra hz
        exact hk ((countKey_mem d u).mpr (by omega))
      simp [this]
    · simp [hu, h]

theorem countKey_dictInsert_pos {α : Type} (d : List (String × α)) (k u : String) (v : α)
    (h : 1 ≤ countKey d u) : 1 ≤ countKey (dictInsert d k v) u := by
  rw [countKey_dictInsert]
  by_cases hk : k ∈ dictKeys d
  · simp [hk, h]
  · simp only [if_neg hk]
    omega

theorem countKey_dictInsert_self {α : Type} (d : List (String × α)) (k : String) (v : α) :
    1 ≤ countKey (dictInsert d k v) k := by
  rw [countKey_dictInsert]
  by_cases hk : k ∈ dictKeys d
  · simp [hk]
    exact (countKey_mem d k).mp hk
  · simp [hk]

theorem dictInsert_nodup {α : Type} (d : List (String × α)) (k : String) (v : α)
    (h : (dictKeys d).Nodup) : (dictKeys (dictInsert d k v)).Nodup := by
  rw [dictKeys_dictInsert]
  by_cases hk : k ∈ dictKeys d
  · simp [hk, h]
  · simp [hk, List.nodup_append, h]

theorem fourchanStreamUrl_stops (ok : Bool) (intr comp : Nat → Bool) :
    ∀ (chunks : List (List Nat)) (s t : Nat),
    (∀ c ∈ chunks, c ≠ []) → t < chunks.length →
    (∀ i, i < t → sinkStop ok intr comp (s + i) = false) →
    sinkStop ok intr comp (s + t) = true →
    fourchanStreamUrl ok intr comp (fun _ => true) chunks s
      = Except.ok ⟨chunks.take t, true⟩ := by
  intro chunks
  induction chunks with
  | nil =>
    intro s t _ hlen _ _
    simp at hlen
  | cons c rest ih =>
    intro s t hne hlen hbefore hstop
    have hc : c ≠ [] := hne c (by simp)
    have hce : c.isEmpty = false := by
      cases c with
      | nil => exact absurd rfl hc
      | cons a as => rfl
    rw [fourchanStreamUrl]
    cases t with
    | zero =>
      simp only [Nat.add_zero] at hstop
      simp [hce, hstop]
    | succ n =>
      have h0 : sinkStop ok intr comp s = false := by
        have := hbefore 0 (by omega)
        simpa using this
      have ihr := ih (s + 1) n (fun d hd => hne d (by simp [hd]))
        (by simp at hlen; omega)
        (fun i hi => by
          have := hbefore (i + 1) (by omega)
          have he : s + (i + 1) = s + 1 + i := by omega
          rw [he] at this
          exact this)
        (by
          have he : s + (n + 1) = s + 1 + n := by omega
          rw [he] at hstop
          exact hstop)
      simp [hce, h0, ihr]

theorem fourchanStreamUrl_readsAll (ok : Bool) (intr comp : Nat → Bool) :
    ∀ (chunks : List (List Nat)) (s : Nat),
    (∀ c ∈ chunks, c ≠ []) →
    (∀ i, i < chunks.length → sinkStop ok intr comp (s + i) = false) →
    fourchanStreamUrl ok intr comp (fun _ => true) chunks s
      = Except.ok ⟨chunks, false⟩ := by
  intro chunks
  induction chunks with
  | nil =>
    intro s _ _
    rw [fourchanStreamUrl]
  | cons c rest ih =>
    intro s hne hflags
    have hc : c ≠ [] := hne c (by simp)
    have hce : c.isEmpty = false := by
      cases c with
      | nil => exact absurd rfl hc
      | cons a as => rfl
    have h0 : sinkStop ok intr comp s = false := by
      have := hflags 0 (by simp)
      simpa using this
    have ihr := ih (s + 1) (fun d hd => hne d (by simp [hd]))
      (fun i hi => by
        have := hflags (i + 1) (by simp; omega)
        have he : s + (i + 1) = s + 1 + i := by omega
        rw [he] at this
        exact this)
    rw [fourchanStreamUrl]
    simp [hce, h0, ihr]

theorem rootStreamUrl_agrees (ok : Bool) (intr comp wOk : Nat → Bool) :
    ∀ (chunks : List (List Nat)) (s : Nat) (r : SinkRun),
    fourchanStreamUrl ok intr comp wOk chunks s = Except.ok r →
    rootStreamUrl ok intr comp wOk chunks s = r := by
  intro chunks
  induction chunks with
  | nil =>
    intro s r h
    rw [fourchanStreamUrl] at h
    rw [rootStreamUrl]
    exact (Except.ok.injEq _ _).mp h
  | cons c rest ih =>
    intro s r h
    rw [fourchanStreamUrl] at h
    rw [rootStreamUrl]
    by_cases hce : c.isEmpty
    · simp [hce] at h ⊢
      exact h
    · simp only [Bool.not_eq_true] at hce
      by_cases hstop : sinkStop ok intr comp s
      · simp [hce, hstop] at h ⊢
        exact h
      · simp only [Bool.not_eq_true] at hstop
        by_cases hw : wOk s
        · simp only [hce, hstop, hw, if_false, if_true, Bool.false_eq_true] at h ⊢
          cases hrec : fourchanStreamUrl ok intr comp wOk rest (s + 1) with
          | error e => rw [hrec] at h; exact absurd h (by simp)
          | ok r2 =>
            rw [hrec] at h
            have h2 := (Except.ok.injEq _ _).mp h
            rw [ih (s + 1) r2 hrec, ← h2]
        · simp only [hce, hstop, hw, if_false, Bool.false_eq_true] at h
          exact absurd h (by simp)

theorem rootStreamUrl_swallowAll (ok : Bool) (intr comp wOk : Nat → Bool) :
    ∀ (chunks : List (List Nat)) (s : Nat),
    (∀ c ∈ chunks, c ≠ []) →
    (∀ i, sinkStop ok intr comp i = false) →
    (∀ i, wOk i = false) →
    rootStreamUrl ok intr comp wOk chunks s = ⟨[], false⟩ := by
  intro chunks
  induction chunks with
  | nil =>
    intro s _ _ _
    rw [rootStreamUrl]
  | cons c rest ih =>
    intro s hne hflags hw
    have hc : c ≠ [] := hne c (by simp)
    have hce : c.isEmpty = false := by
      cases c with
      | nil => exact absurd rfl hc
      | cons a as => rfl
    rw [rootStreamUrl]
    simp [hce, hflags s, hw s, ih (s + 1) (fun d hd => hne d (by simp [hd])) hflags hw]

theorem downloadImagesGo_countKey_le (amount : Nat) (intr : Nat → Bool) :
    ∀ (rs : List (String × Nat)) (i : Nat) (md : List (String × Bool))
      (dl fl : List String),
    (∀ u, countKey md u ≤ 1) →
    ∀ u, countKey (downloadImagesGo amount intr rs i md dl fl).metadata u ≤ 1 := by
  intro rs
  induction rs with
  | nil =>
    intro i md dl fl hmd u
    rw [downloadImagesGo]
    exact hmd u
  | cons hd rest ih =>
    intro i md dl fl hmd u
    obtain ⟨url, status⟩ := hd
    rw [downloadImagesGo]
    by_cases hint : intr i
    · simp only [hint, if_true]
      exact hmd u
    · simp only [hint, if_false, Bool.false_eq_true]
      by_cases hcap : 0 < amount ∧ amount ≤ (if status = 200 then dl ++ [url] else dl).length
      · simp only [hcap, if_true]
        exact countKey_dictInsert_le md url u _ (hmd u)
      · simp only [hcap, if_false]
        exact ih (i + 1) _ _ _ (fun w => countKey_dictInsert_le md url w _ (hmd w)) u

theorem downloadImagesGo_countKey_pos (intr : Nat → Bool) (hni : ∀ n, intr n = false) :
    ∀ (rs : List (String × Nat)) (i : Nat) (md : List (String × Bool))
      (dl fl : List String) (u : String),
    (u ∈ (rs.map Prod.fst) ∨ 1 ≤ countKey md u) →
    1 ≤ countKey (downloadImagesGo 0 intr rs i md dl fl).metadata u := by
  intro rs
  induction rs with
  | nil =>
    intro i md dl fl u hmem
    rw [downloadImagesGo]
    rcases hmem with h | h
    · simp at h
    · exact h
  | cons hd rest ih =>
    intro i md dl fl u hmem
    obtain ⟨url, status⟩ := hd
    rw [downloadImagesGo]
    simp only [hni i, if_false, Bool.false_eq_true]
    have hcap : ¬(0 < 0 ∧ 0 ≤ (if status = 200 then dl ++ [url] else dl).length) := by
      omega
    simp only [hcap, if_false]
    apply ih
    rcases hmem with h | h
    · simp only [List.map_cons, List.mem_cons] at h
      rcases h with h | h
      · right
        rw [h]
        exact countKey_dictInsert_self md url _
      · left
        exact h
    · right
      exact countKey_dictInsert_pos md url u _ h

theorem buildFilenames_aux_nodup :
    ∀ (urls : List String) (acc : List (String × String)),
    (dictKeys acc).Nodup → (dictKeys (urls.foldl registerImageUrl acc)).Nodup := by
  intro urls
  induction urls with
  | nil => intro acc h; simpa using h
  | cons u t ih =>
    intro acc h
    simp only [List.foldl_cons]
    exact ih _ (dictInsert_nodup acc u _ h)

/-- C8: the completion fraction of the resolve-then-download pipeline is
0.5 * resolve_fraction + 0.5 * download_fraction: during URL collection the
reported progress is half the resolve fraction (download fraction 0), and
during downloading it is one half (resolve done) plus half the download
fraction.  Concretely, 50 of 100 URLs resolved and none downloaded reports
0.25, and 25 of 100 downloaded after full resolution reports 0.625. -/
theorem claim8_progress_fraction :
    collectProgress 50 100 = 1 / 4
    ∧ downloadProgress 25 100 = 5 / 8
    ∧ (∀ r a : ℚ, collectProgress r a = (1 / 2) * (r / a) + (1 / 2) * 0)
    ∧ (∀ d t : ℚ, downloadProgress d t = (1 / 2) * 1 + (1 / 2) * (d / t)) := by
  refine ⟨by norm_num [collectProgress], by norm_num [downloadProgress], ?_, ?_⟩
  · intro r a
    unfold collectProgress
    ring
  · intro d t
    unfold downloadProgress
    ring

/-- C9 counterexample: two distinct resolved URLs whose final path segment
coincides are assigned the same staging filename, so staging filenames are
not unique (the second download would overwrite the first). -/
theorem claim9_filename_counterexample :
    ("https://desu-usergeneratedcontent.xyz/a/image/170001.jpg" : String)
        ≠ "https://desu-usergeneratedcontent.xyz/b/image/170001.jpg"
    ∧ filenameFor "https://desu-usergeneratedcontent.xyz/a/image/170001.jpg"
        = filenameFor "https://desu-usergeneratedcontent.xyz/b/image/170001.jpg"
    ∧ buildFilenames ["https://desu-usergeneratedcontent.xyz/a/image/170001.jpg",
        "https://desu-usergeneratedcontent.xyz/b/image/170001.jpg"]
      = [("https://desu-usergeneratedcontent.xyz/a/image/170001.jpg", "170001.jpg"),
         ("https://desu-usergeneratedcontent.xyz/b/image/170001.jpg", "170001.jpg")] := by
  refine ⟨by decide, by decide, by decide⟩

/-- C9 (amended): the filename registry, keyed by resolved URL, holds at
most one entry per canonical key — its key list stays duplicate-free
however URLs are fed to it — but the assigned filenames themselves are not
unique within the staging area: distinct resolved URLs sharing the final
path segment receive the same filename. -/
theorem claim9_filename_amended :
    (∀ urls : List String, (dictKeys (buildFilenames urls)).Nodup)
    ∧ (∃ u1 u2 : String, u1 ≠ u2 ∧ filenameFor u1 = filenameFor u2) := by
  constructor
  · intro urls
    have h := buildFilenames_aux_nodup urls [] (by simp [dictKeys])
    simpa [buildFilenames] using h
  · exact ⟨"a/x.jpg", "b/x.jpg", by decide, by decide⟩

/-- C10: webjutter_search_request silently coerces a max_retries below 1 up
to 3 — with any such value the whole request loop behaves exactly as with
the default 3 — while any max_retries ≥ 1, including the max_retries = 1
passed by validate_query, is used unchanged; the effective retry budget is
therefore never below 1. -/
theorem claim10_max_retries :
    (∀ m : Int, m < 1 → effectiveMaxRetries m = 3)
    ∧ (∀ m : Int, 1 ≤ m → effectiveMaxRetries m = m)
    ∧ (∀ m : Int, 1 ≤ effectiveMaxRetries m)
    ∧ (∀ (attempts : Nat → HttpAttempt) (m : Int), m < 1 →
        webjutterSearchRequest attempts m = webjutterSearchRequest attempts 3)
    ∧ effectiveMaxRetries validateQueryMaxRetries = validateQueryMaxRetries := by
  refine ⟨?_, ?_, ?_, ?_, by decide⟩
  · intro m hm
    simp [effectiveMaxRetries, hm]
  · intro m hm
    unfold effectiveMaxRetries
    rw [if_neg (by omega)]
  · intro m
    unfold effectiveMaxRetries
    split <;> omega
  · intro attempts m hm
    unfold webjutterSearchRequest
    congr 1
    simp [effectiveMaxRetries, hm]

/-- Witness for C10 at concrete values: 0 is coerced to 3 (and gives the
same request behaviour as 3), 5 and the validate_query value 1 are kept,
and a negative budget still ends up at least 1. -/
theorem claim10_max_retries_witness :
    effectiveMaxRetries 0 = 3
    ∧ effectiveMaxRetries 5 = 5
    ∧ (1 : Int) ≤ effectiveMaxRetries (-7)
    ∧ webjutterSearchRequest (fun _ => HttpAttempt.timeout) 0
        = webjutterSearchRequest (fun _ => HttpAttempt.timeout) 3 := by
  refine ⟨claim10_max_retries.1 0 (by omega), claim10_max_retries.2.1 5 (by omega),
    claim10_max_retries.2.2.1 (-7), claim10_max_retries.2.2.2.1 (fun _ => HttpAttempt.timeout) 0 (by omega)⟩

/-- C1: the retry budget is 3 retries per target (4 attempts in total), in
both the manual retry loop of collect_image_urls and in
webjutter_search_request with its default max_retries = 3: at most 3
consecutive retryable (transient) failures followed by a success still end
in success after k + 1 attempts, while 4 consecutive retryable failures end
in a terminal failure after exactly 4 attempts — the policy never retries a
4th time (the outcome is fixed whatever the attempt environment holds from
index 4 on). -/
theorem claim1_retry_budget :
    (∀ (attempts : Nat → CollectAttempt) (k : Nat), k ≤ 3 →
      (∀ i, i < k → collectRetryable (attempts i) = true ∧ attempts i ≠ CollectAttempt.found) →
      attempts k = CollectAttempt.found →
      collectImageUrlTarget attempts = ⟨true, k + 1, expWaits 0 k⟩)
    ∧ (∀ attempts : Nat → CollectAttempt,
      (∀ i, i ≤ 3 → collectRetryable (attempts i) = true ∧ attempts i ≠ CollectAttempt.found) →
      collectImageUrlTarget attempts = ⟨false, 4, expWaits 0 3⟩)
    ∧ (∀ (attempts : Nat → HttpAttempt) (k : Nat), k ≤ 3 →
      (∀ i, i < k → attempts i = HttpAttempt.timeout) →
      attempts k = HttpAttempt.response 200 false true →
      webjutterSearchRequest attempts 3 = ReqOutcome.success 200)
    ∧ (∀ attempts : Nat → HttpAttempt,
      (∀ i, i ≤ 3 → attempts i = HttpAttempt.timeout) →
      webjutterSearchRequest attempts 3 = ReqOutcome.timeoutRaise) := by
  refine ⟨?_, ?_, ?_, ?_⟩
  · intro attempts k hk hf hs
    unfold collectImageUrlTarget
    have h := collectRetryLoop_succeeds attempts k 0 3 hk
      (fun i hi => by simpa using hf i hi) (by simpa using hs)
    simpa using h
  · intro attempts hf
    unfold collectImageUrlTarget
    have h := collectRetryLoop_exhausts attempts 3 0
      (fun i hi => by simpa using hf i hi)
    simpa using h
  · intro attempts k hk hf hs
    have h4 : webjutterSearchRequest attempts 3 = wsrGo attempts 0 4 := rfl
    rw [h4, wsrGo_skip_timeouts attempts k 0 4 (fun i hi => by simpa using hf i hi) (by omega)]
    obtain ⟨m, hm⟩ : ∃ m, 4 - k = m + 1 := ⟨3 - k, by omega⟩
    rw [Nat.zero_add, hm, wsrGo, hs]
    norm_num
  · intro attempts hf
    have h4 : webjutterSearchRequest attempts 3 = wsrGo attempts 0 4 := rfl
    rw [h4, wsrGo_skip_timeouts attempts 3 0 4 (fun i hi => by simpa using hf i (by omega)) (by omega)]
    rw [show (4 : Nat) - 3 = 0 + 1 from rfl, Nat.zero_add, wsrGo, hf 3 (by omega)]
    norm_num

/-- Witness for C1 at concrete attempt schedules: two transient failures
then success end in success after 3 attempts; unbroken failures end in a
terminal failure after exactly 4 attempts, in both retry loops. -/
theorem claim1_retry_budget_witness :
    collectImageUrlTarget (fun i => if i < 2 then CollectAttempt.rateLimited else CollectAttempt.found)
      = ⟨true, 3, expWaits 0 2⟩
    ∧ collectImageUrlTarget (fun _ => CollectAttempt.badStatus 500) = ⟨false, 4, expWaits 0 3⟩
    ∧ webjutterSearchRequest
        (fun i => if i < 2 then HttpAttempt.timeout else HttpAttempt.response 200 false true) 3
      = ReqOutcome.success 200
    ∧ webjutterSearchRequest (fun _ => HttpAttempt.timeout) 3 = ReqOutcome.timeoutRaise := by
  refine ⟨?_, ?_, ?_, ?_⟩
  · exact claim1_retry_budget.1 _ 2 (by omega) (by decide) (by decide)
  · exact claim1_retry_budget.2.1 _ (by decide)
  · exact claim1_retry_budget.2.2.1 _ 2 (by omega) (by decide) (by decide)
  · exact claim1_retry_budget.2.2.2 _ (fun i _ => rfl)

/-- C2 counterexample: after one and the same first failure, the two cited
sites wait different amounts — the collect loop of collect_image_urls
sleeps 2^(0+1) = 2 seconds before the first retry, while the 429 handler
of get_items sleeps min(2^0, 60) = 1 second — so no single formula 2^k
gives the backoff wait before retry attempt k at both sites; and the
generic transient (connection-error) wait in get_items is a fixed 2
seconds, not an uncapped exponential (before the second retry it is still
2, not 2^2). -/
theorem claim2_backoff_counterexample :
    (collectImageUrlTarget
        (fun i => if i = 0 then CollectAttempt.rateLimited else CollectAttempt.found)).sleeps = [2]
    ∧ (getItems noInterrupt [FetchResult.http429, FetchResult.page [5] none]).sleeps = [1]
    ∧ ((2 : ℚ) ≠ 1)
    ∧ (getItems noInterrupt
        [FetchResult.connError, FetchResult.connError, FetchResult.page [5] none]).sleeps = [2, 2]
    ∧ ((2 : ℚ) ≠ 2 ^ 2)
    ∧ collectSleepTime 0 = 2
    ∧ rateLimitWait 0 = 1
    ∧ collectSleepTime 0 ≠ rateLimitWait 0 := by
  refine ⟨?_, ?_, by norm_num, ?_, by norm_num,
    by norm_num [collectSleepTime], by norm_num [rateLimitWait],
    by norm_num [collectSleepTime, rateLimitWait]⟩
  · norm_num [collectImageUrlTarget, collectRetryLoop, collectRetryable]
    decide
  · norm_num [getItems, getItemsGo, sleepCons, noInterrupt]
  · norm_num [getItems, getItemsGo, sleepCons, noInterrupt]

/-- C2 (amended): each site has its own backoff formula.  In the collect
loop of collect_image_urls the wait before retry attempt i + 1 equals
2^(i + 1) seconds, uncapped; in the 429 rate-limit handler of get_items the
wait before retry attempt i + 1 equals min(2^i, 60) seconds; connection
errors in get_items always wait a fixed 2 seconds. -/
theorem claim2_backoff_amended :
    (∀ (attempts : Nat → CollectAttempt) (k : Nat), k ≤ 3 →
      (∀ i, i < k → collectRetryable (attempts i) = true ∧ attempts i ≠ CollectAttempt.found) →
      attempts k = CollectAttempt.found →
      (collectImageUrlTarget attempts).sleeps = expWaits 0 k
        ∧ ∀ i, i < k → (collectImageUrlTarget attempts).sleeps.getD i 0 = (2 : ℚ) ^ (i + 1))
    ∧ (∀ k : Nat, k ≤ 3 →
      getItems noInterrupt (List.replicate k FetchResult.http429 ++ [FetchResult.page [5] none])
        = ⟨GOutcome.finished, [5], k + 1, rlWaits 0 k⟩
        ∧ ∀ i, i < k → (rlWaits 0 k).getD i 0 = min ((2 : ℚ) ^ i) 60)
    ∧ (∀ k : Nat, k ≤ 3 →
      getItems noInterrupt (List.replicate k FetchResult.connError ++ [FetchResult.page [5] none])
        = ⟨GOutcome.finished, [5], k + 1, List.replicate k 2⟩) := by
  refine ⟨?_, ?_, ?_⟩
  · intro attempts k hk hf hs
    unfold collectImageUrlTarget
    have h := collectRetryLoop_succeeds attempts k 0 3 hk
      (fun i hi => by simpa using hf i hi) (by simpa using hs)
    rw [h]
    refine ⟨rfl, fun i hi => ?_⟩
    have := expWaits_getD k 0 i hi
    simpa using this
  · intro k hk
    refine ⟨?_, fun i hi => by simpa using rlWaits_getD k 0 i hi⟩
    interval_cases k
    · norm_num [getItems, getItemsGo, sleepCons, noInterrupt, rlWaits]
    · norm_num [getItems, getItemsGo, sleepCons, noInterrupt, rlWaits]
    · norm_num [getItems, getItemsGo, sleepCons, noInterrupt, rlWaits]
    · norm_num [getItems, getItemsGo, sleepCons, noInterrupt, rlWaits]
  · intro k hk
    interval_cases k
    · norm_num [getItems, getItemsGo, sleepCons, noInterrupt, List.replicate]
    · norm_num [getItems, getItemsGo, sleepCons, noInterrupt, List.replicate]
    · norm_num [getItems, getItemsGo, sleepCons, noInterrupt, List.replicate]
    · norm_num [getItems, getItemsGo, sleepCons, noInterrupt, List.replicate]

/-- Witness for C2 at concrete schedules: with two retryable failures the
collect loop sleeps 2 then 4 seconds (getD 1 picks the 2^2 wait), while
two 429 responses make get_items sleep 1 then 2 seconds, and two
connection errors make it sleep 2 then 2. -/
theorem claim2_backoff_amended_witness :
    (collectImageUrlTarget
        (fun i => if i < 2 then CollectAttempt.badStatus 503 else CollectAttempt.found)).sleeps.getD 1 0
      = (2 : ℚ) ^ 2
    ∧ getItems noInterrupt (List.replicate 2 FetchResult.http429 ++ [FetchResult.page [5] none])
        = ⟨GOutcome.finished, [5], 3, rlWaits 0 2⟩
    ∧ getItems noInterrupt (List.replicate 2 FetchResult.connError ++ [FetchResult.page [5] none])
        = ⟨GOutcome.finished, [5], 3, List.replicate 2 2⟩ := by
  refine ⟨?_, ?_, ?_⟩
  · exact (claim2_backoff_amended.1 _ 2 (by omega) (by decide) (by decide)).2 1 (by omega)
  · exact (claim2_backoff_amended.2.1 2 (by omega)).1
  · exact claim2_backoff_amended.2.2 2 (by omega)

/-- C3 counterexample: there is no max_records stop condition in get_items.
With max_records = 4 the claim predicts that collection stops after the
second page (5 ≥ 4 accumulated records, two fetches); instead the code also
fetches the third non-empty page, accumulates 7 records, and is still
asking for more pages when the scripted server responses run out. -/
theorem claim3_pagination_counterexample :
    (getItems noInterrupt [FetchResult.page [1, 2, 3] (some 1), FetchResult.page [4, 5] (some 2),
        FetchResult.page [6, 7] (some 3)]).fetched = 3
    ∧ (getItems noInterrupt [FetchResult.page [1, 2, 3] (some 1), FetchResult.page [4, 5] (some 2),
        FetchResult.page [6, 7] (some 3)]).results = [1, 2, 3, 4, 5, 6, 7]
    ∧ ¬((getItems noInterrupt [FetchResult.page [1, 2, 3] (some 1), FetchResult.page [4, 5] (some 2),
        FetchResult.page [6, 7] (some 3)]).fetched ≤ 2) := by
  refine ⟨?_, ?_, ?_⟩ <;> norm_num [getItems, getItemsGo, sleepCons, noInterrupt]

/-- C3 (amended): pagination stops on interruption (checked at the top of
every iteration, before the fetch), on a page with zero items, or on a page
without a cursor; there is no max_records stop — a run of non-empty
cursor-carrying pages is consumed in full regardless of the accumulated
record count.  For pages of 3 items with a cursor, 2 items with a cursor,
then 0 items, collection performs three fetches and stops with 5
accumulated records. -/
theorem claim3_pagination_amended :
    getItems noInterrupt [FetchResult.page [1, 2, 3] (some 1), FetchResult.page [4, 5] (some 2),
        FetchResult.page [] none]
      = ⟨GOutcome.finished, [1, 2, 3, 4, 5], 3, [1 / 2, 1 / 2]⟩
    ∧ (∀ ps : List (List Nat × Nat), (∀ p ∈ ps, p.1 ≠ []) →
        getItems noInterrupt (cursorPages ps)
          = ⟨GOutcome.starved, pageItems ps, ps.length, List.replicate ps.length (1 / 2)⟩)
    ∧ (∀ (ps : List (List Nat × Nat)) (sa : Option Nat) (rest : List FetchResult),
        (∀ p ∈ ps, p.1 ≠ []) →
        getItems noInterrupt (cursorPages ps ++ FetchResult.page [] sa :: rest)
          = ⟨GOutcome.finished, pageItems ps, ps.length + 1, List.replicate ps.length (1 / 2)⟩)
    ∧ (∀ (ps : List (List Nat × Nat)) (its : List Nat) (rest : List FetchResult),
        (∀ p ∈ ps, p.1 ≠ []) → its ≠ [] →
        getItems noInterrupt (cursorPages ps ++ FetchResult.page its none :: rest)
          = ⟨GOutcome.finished, pageItems ps ++ its, ps.length + 1, List.replicate ps.length (1 / 2)⟩)
    ∧ (∀ fetches : List FetchResult,
        getItems (fun _ => true) fetches = ⟨GOutcome.interruptedRaise, [], 0, []⟩) := by
  refine ⟨?_, ?_, ?_, ?_, ?_⟩
  · norm_num [getItems, getItemsGo, sleepCons, noInterrupt]
  · intro ps hps
    unfold getItems
    rw [show cursorPages ps = cursorPages ps ++ [] by simp,
      getItemsGo_cursor_pages ps [] 0 [] hps]
    rw [getItemsGo.eq_def]
    simp [noInterrupt, prependSleeps]
  · intro ps sa rest hps
    unfold getItems
    rw [getItemsGo_cursor_pages ps (FetchResult.page [] sa :: rest) 0 [] hps,
      getItemsGo_pageEmpty 3 sa rest (0 + ps.length) ([] ++ pageItems ps) 0 (by omega)]
    simp [prependSleeps]
  · intro ps its rest hps hne
    unfold getItems
    rw [getItemsGo_cursor_pages ps (FetchResult.page its none :: rest) 0 [] hps,
      getItemsGo_pageLast 3 its rest (0 + ps.length) ([] ++ pageItems ps) 0 (by omega) hne]
    simp [prependSleeps]
  · intro fetches
    unfold getItems
    exact getItemsGo_interrupted (fun _ => true) 3 fetches 0 [] 0 (by omega) rfl

/-- Witness for C3 at concrete pages: three non-empty cursor pages are all
consumed (9 records, no stop); a page of zero items stops collection right
after it; a page without a cursor stops collection keeping its items; an
interrupt raised before the first fetch aborts with nothing fetched. -/
theorem claim3_pagination_amended_witness :
    getItems noInterrupt (cursorPages [([1, 2, 3], 1), ([4, 5], 2), ([6, 7], 3)])
      = ⟨GOutcome.starved, pageItems [([1, 2, 3], 1), ([4, 5], 2), ([6, 7], 3)], 3,
         List.replicate 3 (1 / 2)⟩
    ∧ getItems noInterrupt (cursorPages [([1, 2, 3], 1)] ++ FetchResult.page [] none :: [])
      = ⟨GOutcome.finished, pageItems [([1, 2, 3], 1)], 2, List.replicate 1 (1 / 2)⟩
    ∧ getItems noInterrupt (cursorPages [([1, 2, 3], 1)] ++ FetchResult.page [9] none :: [])
      = ⟨GOutcome.finished, pageItems [([1, 2, 3], 1)] ++ [9], 2, List.replicate 1 (1 / 2)⟩
    ∧ getItems (fun _ => true) [FetchResult.page [1] (some 1)]
      = ⟨GOutcome.interruptedRaise, [], 0, []⟩ := by
  refine ⟨claim3_pagination_amended.2.1 _ (by decide),
    claim3_pagination_amended.2.2.1 _ none [] (by decide),
    claim3_pagination_amended.2.2.2.1 _ [9] [] (by decide) (by decide),
    claim3_pagination_amended.2.2.2.2 _⟩

/-- C4 counterexample.  First conjunct: three consecutive page-fetch
failures do not abort — a 4th fetch is attempted and the run finishes
successfully with the page it returns.  Second: when the budget is really
exhausted (four consecutive failures after one good page), the loop just
ends: a normal finish carrying the partial results, with no run-level
error.  Third: the webjutter_search variant does surface a run-level error
(finish(-1)) on a failed page request, but it returns None, discarding the
two records already accumulated. -/
theorem claim4_fatal_counterexample :
    getItems noInterrupt [FetchResult.connError, FetchResult.connError, FetchResult.connError,
        FetchResult.page [9] none] = ⟨GOutcome.finished, [9], 4, [2, 2, 2]⟩
    ∧ getItems noInterrupt [FetchResult.page [1] (some 7), FetchResult.connError,
        FetchResult.connError, FetchResult.connError, FetchResult.connError]
      = ⟨GOutcome.finished, [1], 5, [1 / 2, 2, 2, 2, 2]⟩
    ∧ getItems2 noInterrupt [Fetch2.page [1, 2] (some 5), Fetch2.exn]
      = ⟨G2Outcome.errorFinish, none, 2⟩ := by
  refine ⟨?_, ?_, by decide⟩
  · norm_num [getItems, getItemsGo, sleepCons, noInterrupt]
  · norm_num [getItems, getItemsGo, sleepCons, noInterrupt]

/-- C4 (amended): the pagination failure counter resets to zero after every
successfully parsed page; the collection loop of get_items aborts on the
4th consecutive page-fetch failure (a 3-retry budget) — after exactly 3
consecutive failures a further fetch is still attempted — and on abort the
loop ends as a normal finish returning the accumulated partial results,
without a run-level error; in the webjutter_search variant a failed page
request surfaces a run-level error (finish(-1)) but returns None,
discarding the accumulated partial results. -/
theorem claim4_fatal_amended :
    (∀ (its : List Nat) (sa : Nat) (rest : List FetchResult) (f : Nat) (res : List Nat) (r : Nat),
      r ≤ 3 → its ≠ [] →
      getItemsGo noInterrupt 3 (FetchResult.page its (some sa) :: rest) f res r
        = sleepCons (1 / 2) (getItemsGo noInterrupt 3 rest (f + 1) (res ++ its) 0))
    ∧ (∀ (rest : List FetchResult) (f : Nat) (res : List Nat),
      getItemsGo noInterrupt 3 (FetchResult.connError :: FetchResult.connError ::
          FetchResult.connError :: FetchResult.connError :: rest) f res 0
        = ⟨GOutcome.finished, res, f + 4, [2, 2, 2, 2]⟩)
    ∧ (∀ (rest : List FetchResult) (f : Nat) (res : List Nat),
      getItemsGo noInterrupt 3 (FetchResult.connError :: FetchResult.connError ::
          FetchResult.connError :: rest) f res 0
        = sleepCons 2 (sleepCons 2 (sleepCons 2 (getItemsGo noInterrupt 3 rest (f + 3) res 3))))
    ∧ (∀ (rest : List Fetch2) (f : Nat) (res : List Nat) (r : Nat), r ≤ 3 →
      getItems2Go noInterrupt 3 (Fetch2.exn :: rest) f res r
        = ⟨G2Outcome.errorFinish, none, f + 1⟩) := by
  refine ⟨?_, ?_, ?_, ?_⟩
  · intro its sa rest f res r hr hne
    exact getItemsGo_pageCursor 3 its sa rest f res r hr hne
  · intro rest f res
    rw [getItemsGo_conn 3 _ f res 0 (by omega),
      getItemsGo_conn 3 _ (f + 1) res (0 + 1) (by omega),
      getItemsGo_conn 3 _ (f + 1 + 1) res (0 + 1 + 1) (by omega),
      getItemsGo_conn 3 _ (f + 1 + 1 + 1) res (0 + 1 + 1 + 1) (by omega),
      getItemsGo_stopRetries noInterrupt 3 rest (f + 1 + 1 + 1 + 1) res (0 + 1 + 1 + 1 + 1) (by omega)]
    simp only [sleepCons]
  · intro rest f res
    rw [getItemsGo_conn 3 _ f res 0 (by omega),
      getItemsGo_conn 3 _ (f + 1) res (0 + 1) (by omega),
      getItemsGo_conn 3 _ (f + 1 + 1) res (0 + 1 + 1) (by omega)]
  · intro rest f res r hr
    rw [getItems2Go.eq_def]
    simp [noInterrupt, Nat.not_lt.mpr hr]

/-- Witness for C4 at concrete inputs: the reset and continuation facts
instantiated — a parsed page resets the counter to zero, three connection
errors still lead to a 4th fetch, four lead to a plain finish with the
partial results, and a request failure in the webjutter_search variant ends
with finish(-1) and no results. -/
theorem claim4_fatal_amended_witness :
    getItemsGo noInterrupt 3 [FetchResult.page [8] (some 4), FetchResult.page [] none] 0 [] 2
      = sleepCons (1 / 2) (getItemsGo noInterrupt 3 [FetchResult.page [] none] 1 [8] 0)
    ∧ getItemsGo noInterrupt 3 [FetchResult.connError, FetchResult.connError,
        FetchResult.connError, FetchResult.connError] 0 [1] 0
      = ⟨GOutcome.finished, [1], 4, [2, 2, 2, 2]⟩
    ∧ getItemsGo noInterrupt 3 [FetchResult.connError, FetchResult.connError,
        FetchResult.connError] 0 [] 0
      = sleepCons 2 (sleepCons 2 (sleepCons 2 (getItemsGo noInterrupt 3 [] 3 [] 3)))
    ∧ getItems2Go noInterrupt 3 [Fetch2.exn] 5 [1, 2] 0
      = ⟨G2Outcome.errorFinish, none, 6⟩ := by
  refine ⟨claim4_fatal_amended.1 [8] 4 _ 0 [] 2 (by omega) (by decide),
    ?_, ?_, claim4_fatal_amended.2.2.2 [] 5 [1, 2] 0 (by omega)⟩
  · have h := claim4_fatal_amended.2.1 [] 0 [1]
    simpa using h
  · have h := claim4_fatal_amended.2.2.1 [] 0 []
    simpa using h

/-- C5 counterexample: with a download cap of 1 and three submitted targets
all answering 200, the loop breaks after the first target — "u2" and "u3"
were submitted but get zero manifest entries, refuting "exactly one
outcome entry, never zero".  And under cancellation the staging area is
deleted and the exception propagates before the manifest is written: no
outcome at all is recorded, rather than a failure. -/
theorem claim5_manifest_counterexample :
    downloadImages 1 noInterrupt [("u1", 200), ("u2", 200), ("u3", 200)]
      = ⟨[("u1", true)], ["u1"], [], true, false, true⟩
    ∧ dictLookup (downloadImages 1 noInterrupt [("u1", 200), ("u2", 200), ("u3", 200)]).metadata "u2"
      = none
    ∧ countKey (downloadImages 1 noInterrupt [("u1", 200), ("u2", 200), ("u3", 200)]).metadata "u2"
      = 0
    ∧ downloadImages 0 (fun _ => true) [("u1", 200)] = ⟨[], [], [], false, true, false⟩
    ∧ (downloadImages 0 (fun _ => true) [("u1", 200)]).manifestWritten = false := by
  refine ⟨by decide, by decide, by decide, by decide, by decide⟩

/-- C5 (amended): every submitted target gets at most one manifest entry,
each with a definite success flag; when the run is uncapped (amount 0) and
never interrupted, every submitted target gets exactly one entry; but when
the download cap breaks the loop early, targets whose responses were not
yet consumed get no entry, and on cancellation the manifest is not written
at all — no outcome is recorded as failed. -/
theorem claim5_manifest_amended :
    (∀ (amount : Nat) (intr : Nat → Bool) (rs : List (String × Nat)) (u : String),
      countKey (downloadImages amount intr rs).metadata u ≤ 1)
    ∧ (∀ (rs : List (String × Nat)) (u : String), u ∈ rs.map Prod.fst →
      countKey (downloadImages 0 noInterrupt rs).metadata u = 1)
    ∧ (∀ (amount : Nat) (url : String) (status : Nat) (rest : List (String × Nat)),
      downloadImages amount (fun _ => true) ((url, status) :: rest)
        = ⟨[], [], [], false, true, false⟩) := by
  refine ⟨?_, ?_, ?_⟩
  · intro amount intr rs u
    exact downloadImagesGo_countKey_le amount intr rs 0 [] [] []
      (fun w => by simp [countKey, dictKeys]) u
  · intro rs u hmem
    have hle := downloadImagesGo_countKey_le 0 noInterrupt rs 0 [] [] []
      (fun w => by simp [countKey, dictKeys]) u
    have hpos := downloadImagesGo_countKey_pos noInterrupt (fun n => rfl) rs 0 [] [] [] u
      (Or.inl hmem)
    unfold downloadImages
    omega
  · intro amount url status rest
    unfold downloadImages
    rw [downloadImagesGo]
    simp

/-- Witness for C5 at a concrete run: an uncapped, uninterrupted run over
two targets (one success, one failure) records exactly one manifest entry
for each, and cancellation before the first response leaves no manifest. -/
theorem claim5_manifest_amended_witness :
    countKey (downloadImages 0 noInterrupt [("a", 200), ("b", 404)]).metadata "a" = 1
    ∧ countKey (downloadImages 0 noInterrupt [("a", 200), ("b", 404)]).metadata "b" = 1
    ∧ countKey (downloadImages 7 noInterrupt [("a", 200), ("a", 404)]).metadata "a" ≤ 1
    ∧ downloadImages 3 (fun _ => true) [("c", 200)] = ⟨[], [], [], false, true, false⟩ := by
  refine ⟨claim5_manifest_amended.2.1 [("a", 200), ("b", 404)] "a" (by decide),
    claim5_manifest_amended.2.1 [("a", 200), ("b", 404)] "b" (by decide),
    claim5_manifest_amended.1 7 noInterrupt [("a", 200), ("a", 404)] "a",
    claim5_manifest_amended.2.2 3 "c" 200 []⟩

/-- C6: the fourchan stream_url sink checks not-ok / interrupted / complete
at every chunk boundary, and at the first boundary t where one of them
holds it stops reading and closes the transport, having written exactly the
first t chunks; with four 512-byte chunks and the completion flag raised
after the first chunk, exactly the first 512 bytes are in the destination
file; and in download_images a target whose response is not consumed before
the cap-break has no manifest entry at all, so it is not marked success. -/
theorem claim6_sink_stop :
    (∀ (ok : Bool) (intr comp : Nat → Bool) (chunks : List (List Nat)) (t : Nat),
      (∀ c ∈ chunks, c ≠ []) → t < chunks.length →
      (∀ i, i < t → sinkStop ok intr comp i = false) →
      sinkStop ok intr comp t = true →
      fourchanStreamUrl ok intr comp (fun _ => true) chunks 0
        = Except.ok ⟨chunks.take t, true⟩)
    ∧ fourchanStreamUrl true noInterrupt (fun t => decide (1 ≤ t)) (fun _ => true)
        [List.replicate 512 7, List.replicate 512 7, List.replicate 512 7, List.replicate 512 7] 0
      = Except.ok ⟨[List.replicate 512 7], true⟩
    ∧ (List.replicate 512 (7 : Nat)).length = 512
    ∧ downloadImages 1 noInterrupt [("uA", 200), ("uB", 200)]
      = ⟨[("uA", true)], ["uA"], [], true, false, true⟩
    ∧ dictLookup (downloadImages 1 noInterrupt [("uA", 200), ("uB", 200)]).metadata "uB" = none := by
  refine ⟨?_, by rfl, by rw [List.length_replicate], by decide, by decide⟩
  intro ok intr comp chunks t hne hlen hbefore hstop
  exact fourchanStreamUrl_stops ok intr comp chunks 0 t hne hlen
    (fun i hi => by simpa using hbefore i hi) (by simpa using hstop)

/-- Witness for C6: the general stop property instantiated at a concrete
three-chunk stream whose completion flag rises after the first chunk —
only the first chunk is written and the transport is closed. -/
theorem claim6_sink_stop_witness :
    fourchanStreamUrl true noInterrupt (fun t => decide (1 ≤ t)) (fun _ => true) [[1], [2], [3]] 0
      = Except.ok ⟨[[1]], true⟩ := by
  have h := claim6_sink_stop.1 true noInterrupt (fun t => decide (1 ≤ t)) [[1], [2], [3]] 1
    (by decide) (by decide) (by decide) (by decide)
  simpa using h

/-- C7 counterexample: the fourchan-datasource variant of stream_url has no
try/except around the write, so when the destination vanishes while the
completion flag is about to flip (it rises only after this boundary), the
failed best-effort write raises and the exception propagates out of the
sink instead of being swallowed. -/
theorem claim7_swallow_counterexample :
    fourchanStreamUrl true noInterrupt (fun t => decide (1 ≤ t)) (fun _ => false) [[1], [2]] 0
      = Except.error () := by
  rfl

/-- C7 (amended): only the root download_4chan_images.py sink swallows a
failed best-effort write.  It agrees with the fourchan sink whenever the
latter returns normally; it survives any schedule of failed writes,
consuming the stream and returning normally; and at the same concrete
input where the fourchan sink raises FileNotFoundError, the root sink
returns normally. -/
theorem claim7_swallow_amended :
    (∀ (ok : Bool) (intr comp wOk : Nat → Bool) (chunks : List (List Nat)) (s : Nat) (r : SinkRun),
      fourchanStreamUrl ok intr comp wOk chunks s = Except.ok r →
      rootStreamUrl ok intr comp wOk chunks s = r)
    ∧ (∀ (ok : Bool) (intr comp wOk : Nat → Bool) (chunks : List (List Nat)) (s : Nat),
      (∀ c ∈ chunks, c ≠ []) → (∀ i, sinkStop ok intr comp i = false) → (∀ i, wOk i = false) →
      rootStreamUrl ok intr comp wOk chunks s = ⟨[], false⟩)
    ∧ rootStreamUrl true noInterrupt (fun t => decide (1 ≤ t)) (fun _ => false) [[1], [2]] 0
      = ⟨[], true⟩
    ∧ fourchanStreamUrl true noInterrupt (fun t => decide (1 ≤ t)) (fun _ => false) [[1], [2]] 0
      = Except.error () := by
  exact ⟨rootStreamUrl_agrees, rootStreamUrl_swallowAll, by rfl, by rfl⟩

/-- Witness for C7: the agreement part applied at a one-chunk stream with a
healthy write, and the swallowing part applied at a three-chunk stream all
of whose writes fail — the root sink still consumes the stream and ends
normally. -/
theorem claim7_swallow_amended_witness :
    rootStreamUrl true noInterrupt noInterrupt (fun _ => true) [[3]] 0 = ⟨[[3]], false⟩
    ∧ rootStreamUrl true noInterrupt noInterrupt (fun _ => false) [[1], [2], [3]] 0
      = ⟨[], false⟩ := by
  refine ⟨claim7_swallow_amended.1 true noInterrupt noInterrupt (fun _ => true) [[3]] 0
      ⟨[[3]], false⟩ (by rfl),
    claim7_swallow_amended.2.1 true noInterrupt noInterrupt (fun _ => false) [[1], [2], [3]] 0
      (by decide) (fun i => rfl) (fun i => rfl)⟩
